import Mathlib

/-!
Shallow embedding of the mbdara-service point-of-sale backend
(Elysia + Drizzle, TypeScript) for checking its natural-language
specification.

Conventions of the embedding:
* money columns (`decimal` in PostgreSQL, `parseFloat`-ed numbers in the
  handlers) are modelled as `ℚ`: the handlers' arithmetic is plain
  JavaScript number arithmetic on decimal values, and every claim under
  scrutiny is an algebraic identity that the spec states "up to rounding";
* integer columns (`stock`, `quantity`, ids, timestamps) are `Int`;
* each route handler becomes a pure function from a database state and a
  request body to a response together with the successor database state;
* `NULL`-able columns become `Option`.

Source files embedded: `src/routes/transactions.ts` (POST / and GET /
handlers), `src/db/schema.ts`, `src/utils/auth.ts`.
-/

/-- Row of the `product` table (`src/db/schema.ts`). -/
structure Product where
  id : Int
  name : String
  price : ℚ
  cogs : ℚ
  description : Option String
  stock : Int
  bundleQuantity : Option Int
  bundlePrice : Option ℚ
  organizationId : Option String
deriving Repr, DecidableEq

/-- Row of the `discount` table (`src/db/schema.ts`); `typ` embeds the
`type` column, whose values are the strings `individual_item` or
`for_all_item`. -/
structure Discount where
  id : Int
  name : String
  code : String
  typ : String
  percentage : ℚ
  productId : Option Int
  organizationId : Option String
deriving Repr, DecidableEq

/-- Row of the `transaction` table (`src/db/schema.ts`). -/
structure Transaction where
  id : Int
  totalAmount : ℚ
  createdAt : Int
  discount : Option String
  profit : Option ℚ
  paymentMethod : Option String
  organizationId : Option String
deriving Repr, DecidableEq

/-- Row of the `transactionitem` table (`src/db/schema.ts`). -/
structure TransactionItem where
  id : Int
  transactionId : Option Int
  productId : Int
  quantity : Int
  price : ℚ
deriving Repr, DecidableEq

/-- Database state visible to the transactions router, plus the serial
counters feeding the `serial` primary keys. -/
structure DB where
  products : List Product
  discounts : List Discount
  transactions : List Transaction
  transactionItems : List TransactionItem
  nextTransactionId : Int
  nextItemId : Int
deriving Repr, DecidableEq

/-- One element of the `items` array of the `TransactionCreate` body. -/
structure BodyItem where
  product_id : Int
  quantity : Int
deriving Repr, DecidableEq

/-- Body of `POST /transactions` (`TransactionCreate` in `src/types.ts`). -/
structure TransactionCreateBody where
  items : List BodyItem
  created_at : Option Int
  discount_code : Option String
deriving Repr, DecidableEq

/-- Responses the `POST /transactions` handler can produce: HTTP 400,
HTTP 404, or HTTP 201 with the created transaction row and item rows. -/
inductive CreateResponse where
  | badRequest (msg : String)
  | notFound (msg : String)
  | created (tx : Transaction) (items : List TransactionItem)
deriving Repr, DecidableEq

/-- True exactly on the HTTP 201 outcome. -/
def CreateResponse.isCreated : CreateResponse → Bool
  | .created _ _ => true
  | _ => false

/-- Bundle-pricing arithmetic of the handler (transactions.ts lines
76-98): when the product has both bundle columns set and the quantity
reaches the bundle quantity, the charge is
`bundles * bundleQuantity * bundlePrice + remaining * price` with
`bundles = Math.floor(quantity / bundleQuantity)` and
`remaining = quantity % bundleQuantity`; otherwise it is
`price * quantity`.  `Int` division `/` is floor division for positive
divisors, matching `Math.floor` on the quantities at hand. -/
def calcItemTotal (product : Product) (quantity : Int) : ℚ :=
  match product.bundleQuantity, product.bundlePrice with
  | some bundleQuantity, some bundlePrice =>
    if bundleQuantity ≤ quantity then
      let bundles : Int := quantity / bundleQuantity
      let remaining : Int := quantity % bundleQuantity
      (bundles : ℚ) * (bundleQuantity : ℚ) * bundlePrice +
        (remaining : ℚ) * product.price
    else
      product.price * quantity
  | _, _ => product.price * quantity

/-- Per-line discount step of the handler (transactions.ts lines
100-109): an `individual_item` discount with a product reference equal to
this product's id takes `percentage`% off the line total. -/
def applyItemDiscount (discount : Option Discount) (product : Product)
    (itemTotal : ℚ) : ℚ :=
  match discount with
  | some d =>
    if d.typ = "individual_item" then
      match d.productId with
      | some pid =>
        if pid = product.id then
          itemTotal - itemTotal * (d.percentage / 100)
        else itemTotal
      | none => itemTotal
    else itemTotal
  | none => itemTotal

/-- Whole-order discount step of the handler (transactions.ts lines
121-125): a `for_all_item` discount takes `percentage`% off the
accumulated total. -/
def applyOrderDiscount (discount : Option Discount) (totalAmount : ℚ) : ℚ :=
  match discount with
  | some d =>
    if d.typ = "for_all_item" then
      totalAmount - totalAmount * (d.percentage / 100)
    else totalAmount
  | none => totalAmount

example :
    calcItemTotal
      { id := 1, name := "x", price := 10000, cogs := 0, description := none,
        stock := 100, bundleQuantity := some 10, bundlePrice := some 9000,
        organizationId := none } 15 = 140000 := by norm_num [calcItemTotal]

example :
    calcItemTotal
      { id := 1, name := "x", price := 10000, cogs := 0, description := none,
        stock := 100, bundleQuantity := some 10, bundlePrice := some 9000,
        organizationId := none } 7 = 70000 := by norm_num [calcItemTotal]

/-- Entry of the handler's `itemsToCreate` accumulator (transactions.ts
lines 59-63, 113-118): product id, requested quantity, and the stored
line total. -/
structure ItemToCreate where
  productId : Int
  quantity : Int
  price : ℚ
deriving Repr, DecidableEq

/-- Product dictionary built by the handler (transactions.ts line 27): a
JavaScript `Map` keyed by product id over the batch-fetched list. -/
def buildDict (db : DB) (productIds : List Int) : Int → Option Product :=
  fun pid =>
    ((db.products.filter (fun p => productIds.contains p.id)).find?
      (fun p => p.id = pid))

/-- Per-item loop of the handler (transactions.ts lines 65-119): check
stock against the fetched snapshot, compute the bundle-adjusted,
per-line-discounted line total, accumulate the total amount and the
`itemsToCreate` list; the first stock failure aborts with the HTTP 400
message. -/
def processItems (dict : Int → Option Product) (discount : Option Discount) :
    List BodyItem → Except String (ℚ × List ItemToCreate)
  | [] => .ok (0, [])
  | item :: rest =>
    match dict item.product_id with
    | none => .error "missing product"
    | some product =>
      if product.stock < item.quantity then
        .error ("Not enough stock for product '" ++ product.name ++
          "'. Available: " ++ toString product.stock ++ ", Requested: " ++
          toString item.quantity)
      else
        let itemTotal :=
          applyItemDiscount discount product (calcItemTotal product item.quantity)
        match processItems dict discount rest with
        | .error e => .error e
        | .ok (total, items) =>
          .ok (itemTotal + total,
            ⟨product.id, item.quantity, itemTotal⟩ :: items)

/-- Discount code actually used by the handler: `body.discount_code` is
read through JavaScript truthiness (transactions.ts lines 40 and 135), so
an absent code and an empty-string code both act as no code. -/
def effectiveCode (body : TransactionCreateBody) : Option String :=
  match body.discount_code with
  | some c => if c = "" then none else some c
  | none => none

/-- Discount lookup of the handler (transactions.ts lines 41-45): first
row of the `discount` table whose `code` column matches; no organization
condition appears in the query. -/
def lookupDiscount (db : DB) (code : String) : Option Discount :=
  db.discounts.find? (fun d => d.code = code)

/-- Discount record the handler prices with: the looked-up row when an
effective code is present. -/
def appliedDiscount (db : DB) (body : TransactionCreateBody) : Option Discount :=
  match effectiveCode body with
  | some c => lookupDiscount db c
  | none => none

/-- Stock decrements of the commit phase (transactions.ts lines 140-147):
one relative `stock = stock - quantity` update per `itemsToCreate`
entry, applied in order. -/
def deductStock (productsList : List Product) (items : List ItemToCreate) :
    List Product :=
  items.foldl
    (fun ps it =>
      ps.map (fun p =>
        if p.id = it.productId then { p with stock := p.stock - it.quantity }
        else p))
    productsList

/-- Item rows inserted one by one by the commit phase (transactions.ts
lines 150-155), with consecutive serial ids. -/
def buildItems (nextItemId : Int) (txId : Int) :
    List ItemToCreate → List TransactionItem
  | [] => []
  | it :: rest =>
    { id := nextItemId
      transactionId := some txId
      productId := it.productId
      quantity := it.quantity
      price := it.price } :: buildItems (nextItemId + 1) txId rest

/-- The POST /transactions handler (transactions.ts lines 12-211) as a
state transformer: `now` stands for `new Date()` at the insert.  The
inserted transaction row sets only `total_amount`, `created_at` and
`discount`; `profit`, `payment_method` and `organization_id` are not in
the insert's value list and stay NULL. -/
def createTransaction (db : DB) (body : TransactionCreateBody) (now : Int) :
    CreateResponse × DB :=
  let productIds := body.items.map (fun i => i.product_id)
  if productIds.length = 0 then
    (.badRequest "Transaction must have at least one item", db)
  else
    let dict := buildDict db productIds
    let missingIds := productIds.filter (fun pid => (dict pid).isNone)
    if missingIds.length ≠ 0 then
      (.notFound ("Products not found: " ++
        String.intercalate ", " (missingIds.map toString)), db)
    else
      match effectiveCode body with
      | some c =>
        match lookupDiscount db c with
        | none => (.notFound ("Discount code '" ++ c ++ "' not found"), db)
        | some d => createTransactionCommit db body now (some d)
      | none => createTransactionCommit db body now none
where
  /-- Pricing loop plus atomic commit (transactions.ts lines 57-192). -/
  createTransactionCommit (db : DB) (body : TransactionCreateBody)
      (now : Int) (discount : Option Discount) : CreateResponse × DB :=
    let productIds := body.items.map (fun i => i.product_id)
    let dict := buildDict db productIds
    match processItems dict discount body.items with
    | .error msg => (.badRequest msg, db)
    | .ok (totalAmount0, itemsToCreate) =>
      let totalAmount := applyOrderDiscount discount totalAmount0
      let newTx : Transaction :=
        { id := db.nextTransactionId
          totalAmount := totalAmount
          createdAt := body.created_at.getD now
          discount := effectiveCode body
          profit := none
          paymentMethod := none
          organizationId := none }
      let newItems := buildItems db.nextItemId newTx.id itemsToCreate
      let db' : DB :=
        { db with
          products := deductStock db.products itemsToCreate
          transactions := db.transactions ++ [newTx]
          transactionItems := db.transactionItems ++ newItems
          nextTransactionId := db.nextTransactionId + 1
          nextItemId := db.nextItemId + (itemsToCreate.length : Int) }
      (.created newTx newItems, db')

/-- Ordering used by `GET /transactions` (transactions.ts line 224,
`orderBy(desc(transactions.createdAt))`): row `a` may precede row `b`
when `b` was created no later than `a`. -/
def newestFirst (a b : Transaction) : Bool :=
  b.createdAt ≤ a.createdAt

/-- The GET /transactions handler's row selection (transactions.ts lines
215-226): all rows of the `transaction` table ordered by `created_at`
descending, then `OFFSET offset LIMIT limit` with the schema defaults
`offset = 0`, `limit = 100` (lines 341-344).  The query schema accepts no
other parameters and the query carries no `WHERE` clause. -/
def getTransactionsPage (db : DB) (offset limit : Option Nat) :
    List Transaction :=
  (((db.transactions.mergeSort newestFirst).drop (offset.getD 0)).take
    (limit.getD 100))

/-- JavaScript `str.split(" ")`: cut the character sequence at every
single space, keeping empty pieces, so the empty string yields one empty
piece and a trailing space yields a trailing empty piece. -/
def jsSplitSpace : List Char → List (List Char)
  | [] => [[]]
  | c :: rest =>
    let r := jsSplitSpace rest
    if c = ' ' then [] :: r
    else
      match r with
      | h :: t => (c :: h) :: t
      | [] => [[c]]

/-- JavaScript `str.trim()`: strip whitespace from both ends. -/
def jsTrim (s : List Char) : List Char :=
  ((s.dropWhile Char.isWhitespace).reverse.dropWhile Char.isWhitespace).reverse

/-- The `extractBearerToken` helper (auth.ts lines 8-20), with JavaScript
strings as character lists: truthiness rejects a missing or empty header,
then the value is split on single spaces and must give exactly two parts
whose first part is the literal `Bearer`; the second part is returned
trimmed. -/
def extractBearerToken (authHeader : Option (List Char)) :
    Option (List Char) :=
  match authHeader with
  | none => none
  | some a =>
    if a = [] then none
    else
      match jsSplitSpace a with
      | [scheme, tok] =>
        if scheme = "Bearer".toList then some (jsTrim tok) else none
      | _ => none

/-- Result shape of the auth helpers: `organizationId` or an error
message, exactly one of them set on every path the code takes. -/
structure AuthResult where
  organizationId : Option String
  error : Option String
deriving Repr, DecidableEq

/-- The `getOrganizationIdFromHeaders` helper (auth.ts lines 83-115),
with the session-table read `getActiveOrganizationId` abstracted as the
`lookup` argument; the Bool of the result records whether that read was
performed. -/
def getOrganizationIdFromHeaders (lookup : List Char → AuthResult)
    (authHeader : Option (List Char)) : AuthResult × Bool :=
  match authHeader with
  | none =>
    ({ organizationId := none, error := some "Missing Authorization header" },
      false)
  | some a =>
    if a = [] then
      ({ organizationId := none, error := some "Missing Authorization header" },
        false)
    else
      match extractBearerToken (some a) with
      | none =>
        ({ organizationId := none
           error := some "Invalid Authorization header format" }, false)
      | some tok =>
        if tok = [] then
          ({ organizationId := none
             error := some "Invalid Authorization header format" }, false)
        else
          let result := lookup tok
          match result.error with
          | some e => ({ organizationId := none, error := some e }, true)
          | none =>
            match result.organizationId with
            | none =>
              ({ organizationId := none
                 error := some "Session not found, expired, or no active organization set" },
                true)
            | some org => ({ organizationId := some org, error := none }, true)

/-- Total cost of goods sold of a request, following the spec's words:
accumulate `cogs * quantity` per item over the products the request
references.  This definition is spec-side, for comparison with the
handler: the handler itself never reads `cogs`. -/
def specTotalCOGS (db : DB) (body : TransactionCreateBody) : ℚ :=
  (body.items.map (fun b =>
    match buildDict db (body.items.map (fun i => i.product_id)) b.product_id with
    | some p => p.cogs * (b.quantity : ℚ)
    | none => 0)).sum

/-- Product fixture taken from the spec's worked example: unit price
10,000 with bundle tier quantity 10 and stored bundle price 90,000. -/
def specExampleProduct : Product :=
  { id := 1, name := "Umbrella", price := 10000, cogs := 0,
    description := none, stock := 100, bundleQuantity := some 10,
    bundlePrice := some 90000, organizationId := none }

/-- Single product with stock 5, used for the duplicate-line-item stock
scenario. -/
def stockProduct : Product :=
  { id := 1, name := "Widget", price := 10, cogs := 2, description := none,
    stock := 5, bundleQuantity := none, bundlePrice := none,
    organizationId := none }

/-- Database holding only `stockProduct`. -/
def stockDB : DB :=
  { products := [stockProduct], discounts := [], transactions := [],
    transactionItems := [], nextTransactionId := 1, nextItemId := 1 }

/-- Request that lists the same product twice, each line asking for the
whole remaining stock. -/
def dupItemsBody : TransactionCreateBody :=
  { items := [⟨1, 5⟩, ⟨1, 5⟩], created_at := none, discount_code := none }

/-- Request for three units of `stockProduct`. -/
def threeUnitsBody : TransactionCreateBody :=
  { items := [⟨1, 3⟩], created_at := none, discount_code := none }

/-- Discount owned by a third organization. -/
def crossOrgDiscount : Discount :=
  { id := 1, name := "Cross", code := "XORG", typ := "for_all_item",
    percentage := 10, productId := none, organizationId := some "orgC" }

/-- Product owned by organization A. -/
def crossOrgProductA : Product :=
  { id := 1, name := "A-product", price := 10, cogs := 0,
    description := none, stock := 5, bundleQuantity := none,
    bundlePrice := none, organizationId := some "orgA" }

/-- Product owned by organization B. -/
def crossOrgProductB : Product :=
  { id := 2, name := "B-product", price := 20, cogs := 0,
    description := none, stock := 5, bundleQuantity := none,
    bundlePrice := none, organizationId := some "orgB" }

/-- Two products owned by two different organizations, and a discount
owned by a third one. -/
def crossOrgDB : DB :=
  { products := [crossOrgProductA, crossOrgProductB],
    discounts := [crossOrgDiscount], transactions := [],
    transactionItems := [], nextTransactionId := 1, nextItemId := 1 }

/-- Request buying one unit of each of the two cross-organization
products under the third organization's discount code. -/
def crossOrgBody : TransactionCreateBody :=
  { items := [⟨1, 1⟩, ⟨2, 1⟩], created_at := none,
    discount_code := some "XORG" }

/-- Product with a negative unit price; `POST /products` validates the
bundle fields but places no lower bound on `price`. -/
def negPriceProduct : Product :=
  { id := 1, name := "Refund", price := -10, cogs := 0, description := none,
    stock := 5, bundleQuantity := none, bundlePrice := none,
    organizationId := none }

/-- Whole-order ten-percent discount with code `SALE10`. -/
def orderDiscount10 : Discount :=
  { id := 1, name := "Sale", code := "SALE10", typ := "for_all_item",
    percentage := 10, productId := none, organizationId := none }

/-- Database holding `negPriceProduct` and `orderDiscount10`. -/
def negPriceDB : DB :=
  { products := [negPriceProduct], discounts := [orderDiscount10],
    transactions := [], transactionItems := [], nextTransactionId := 1,
    nextItemId := 1 }

/-- Request buying one unit of the negative-price product with the
whole-order discount code. -/
def negPriceBody : TransactionCreateBody :=
  { items := [⟨1, 1⟩], created_at := none, discount_code := some "SALE10" }

/-- Two transaction rows belonging to two different organizations. -/
def twoOrgTxA : Transaction :=
  { id := 1, totalAmount := 10, createdAt := 5, discount := none,
    profit := none, paymentMethod := none, organizationId := some "orgA" }

/-- Second of the two cross-organization transaction rows. -/
def twoOrgTxB : Transaction :=
  { id := 2, totalAmount := 20, createdAt := 3, discount := none,
    profit := none, paymentMethod := none, organizationId := some "orgB" }

/-- Database whose `transaction` table holds rows of two different
organizations. -/
def twoOrgDB : DB :=
  { products := [], discounts := [], transactions := [twoOrgTxA, twoOrgTxB],
    transactionItems := [], nextTransactionId := 3, nextItemId := 1 }

/-- Organization-field rewrite of a product row; every column the
transactions router reads is untouched. -/
def Product.withOrg (f : Option String → Option String) (p : Product) :
    Product :=
  { p with organizationId := f p.organizationId }

/-- Organization-field rewrite of a discount row. -/
def Discount.withOrg (f : Option String → Option String) (d : Discount) :
    Discount :=
  { d with organizationId := f d.organizationId }

/-- Organization-field rewrite of the two tables the POST handler reads. -/
def DB.mapOrgs (f : Option String → Option String) (db : DB) : DB :=
  { db with
    products := db.products.map (Product.withOrg f)
    discounts := db.discounts.map (Discount.withOrg f) }

/-- Twenty-percent single-product discount targeting product 1. -/
def indivDiscount20 : Discount :=
  { id := 2, name := "Widget deal", code := "WIDGET20",
    typ := "individual_item", percentage := 20, productId := some 1,
    organizationId := none }

/-- Database holding `stockProduct` and the whole-order discount. -/
def posDiscountDB : DB :=
  { products := [stockProduct], discounts := [orderDiscount10],
    transactions := [], transactionItems := [], nextTransactionId := 1,
    nextItemId := 1 }

/-- Request for two units of product 1 under the whole-order discount
code. -/
def posDiscountBody : TransactionCreateBody :=
  { items := [⟨1, 2⟩], created_at := none, discount_code := some "SALE10" }

/-- Transaction row produced by `threeUnitsBody` against `stockDB`. -/
def threeUnitsTx : Transaction :=
  { id := 1, totalAmount := 30, createdAt := 0, discount := none,
    profit := none, paymentMethod := none, organizationId := none }

/-- Item row produced by `threeUnitsBody` against `stockDB`. -/
def threeUnitsItem : TransactionItem :=
  { id := 1, transactionId := some 1, productId := 1, quantity := 3,
    price := 30 }

/-- The stock row of `stockDB` after three units were sold. -/
def soldStockProduct : Product :=
  { id := 1, name := "Widget", price := 10, cogs := 2, description := none,
    stock := 2, bundleQuantity := none, bundlePrice := none,
    organizationId := none }

/-- Database state after `threeUnitsBody` was applied to `stockDB`. -/
def threeUnitsDB : DB :=
  { products := [soldStockProduct], discounts := [],
    transactions := [threeUnitsTx], transactionItems := [threeUnitsItem],
    nextTransactionId := 2, nextItemId := 2 }

/-- Transaction row produced by `posDiscountBody` against
`posDiscountDB`: two units at 10 give 20, minus ten percent gives 18. -/
def saleTx : Transaction :=
  { id := 1, totalAmount := 18, createdAt := 0, discount := some "SALE10",
    profit := none, paymentMethod := none, organizationId := none }

/-- Item row produced by `posDiscountBody`: the stored line total 20 is
the pre-order-discount value. -/
def saleItem : TransactionItem :=
  { id := 1, transactionId := some 1, productId := 1, quantity := 2,
    price := 20 }

/-- The stock row of `posDiscountDB` after two units were sold. -/
def saleSoldProduct : Product :=
  { id := 1, name := "Widget", price := 10, cogs := 2, description := none,
    stock := 3, bundleQuantity := none, bundlePrice := none,
    organizationId := none }

/-- Database state after `posDiscountBody` was applied to
`posDiscountDB`. -/
def saleDB : DB :=
  { products := [saleSoldProduct], discounts := [orderDiscount10],
    transactions := [saleTx], transactionItems := [saleItem],
    nextTransactionId := 2, nextItemId := 2 }

/-- Transaction row produced by `negPriceBody` against `negPriceDB`:
line total -10, order discount ten percent gives -9. -/
def negSaleTx : Transaction :=
  { id := 1, totalAmount := -9, createdAt := 0, discount := some "SALE10",
    profit := none, paymentMethod := none, organizationId := none }

/-- Item row produced by `negPriceBody`: stored line total -10. -/
def negSaleItem : TransactionItem :=
  { id := 1, transactionId := some 1, productId := 1, quantity := 1,
    price := -10 }

/-- The stock row of `negPriceDB` after one unit was sold. -/
def negSoldProduct : Product :=
  { id := 1, name := "Refund", price := -10, cogs := 0, description := none,
    stock := 4, bundleQuantity := none, bundlePrice := none,
    organizationId := none }

/-- Database state after `negPriceBody` was applied to `negPriceDB`. -/
def negSaleDB : DB :=
  { products := [negSoldProduct], discounts := [orderDiscount10],
    transactions := [negSaleTx], transactionItems := [negSaleItem],
    nextTransactionId := 2, nextItemId := 2 }

theorem processItems_ok_sum (dict : Int → Option Product)
    (disc : Option Discount) :
    ∀ (l : List BodyItem) (t : ℚ) (its : List ItemToCreate),
      processItems dict disc l = .ok (t, its) →
      t = (its.map (fun it => it.price)).sum
  | [], t, its, h => by
    simp [processItems] at h
    obtain ⟨h1, h2⟩ := h
    subst h1; subst h2; simp
  | item :: rest, t, its, h => by
    rw [processItems] at h
    cases hd : dict item.product_id with
    | none => rw [hd] at h; exact absurd h (by simp)
    | some product =>
      rw [hd] at h
      dsimp only at h
      by_cases hs : product.stock < item.quantity
      · rw [if_pos hs] at h; exact absurd h (by simp)
      · rw [if_neg hs] at h
        cases hp : processItems dict disc rest with
        | error e => rw [hp] at h; exact absurd h (by simp)
        | ok pr =>
          obtain ⟨total, items⟩ := pr
          rw [hp] at h
          simp only [Except.ok.injEq, Prod.mk.injEq] at h
          obtain ⟨h1, h2⟩ := h
          have ih := processItems_ok_sum dict disc rest total items hp
          subst h2
          simp [← h1, ih]

theorem createTransaction_created_shape (db : DB) (body : TransactionCreateBody)
    (now : Int) (tx : Transaction) (items : List TransactionItem) (db' : DB)
    (h : createTransaction db body now = (.created tx items, db')) :
    ∃ t0 itc,
      processItems (buildDict db (body.items.map (fun i => i.product_id)))
        (appliedDiscount db body) body.items = .ok (t0, itc) ∧
      tx = { id := db.nextTransactionId
             totalAmount := applyOrderDiscount (appliedDiscount db body) t0
             createdAt := body.created_at.getD now
             discount := effectiveCode body
             profit := none, paymentMethod := none, organizationId := none } ∧
      items = buildItems db.nextItemId db.nextTransactionId itc ∧
      db' = { db with
              products := deductStock db.products itc
              transactions := db.transactions ++ [tx]
              transactionItems := db.transactionItems ++ items
              nextTransactionId := db.nextTransactionId + 1
              nextItemId := db.nextItemId + (itc.length : Int) } := by
  have commit : ∀ d, appliedDiscount db body = d →
      createTransaction.createTransactionCommit db body now d =
        (.created tx items, db') →
      ∃ t0 itc,
        processItems (buildDict db (body.items.map (fun i => i.product_id)))
          (appliedDiscount db body) body.items = .ok (t0, itc) ∧
        tx = { id := db.nextTransactionId
               totalAmount := applyOrderDiscount (appliedDiscount db body) t0
               createdAt := body.created_at.getD now
               discount := effectiveCode body
               profit := none, paymentMethod := none, organizationId := none } ∧
        items = buildItems db.nextItemId db.nextTransactionId itc ∧
        db' = { db with
                products := deductStock db.products itc
                transactions := db.transactions ++ [tx]
                transactionItems := db.transactionItems ++ items
                nextTransactionId := db.nextTransactionId + 1
                nextItemId := db.nextItemId + (itc.length : Int) } := by
    intro d hd hc
    rw [hd]
    simp only [createTransaction.createTransactionCommit] at hc
    split at hc
    · exact absurd hc (by simp)
    · rename_i t0 itc hp
      simp only [Prod.mk.injEq, CreateResponse.created.injEq] at hc
      obtain ⟨⟨htx, hitems⟩, hdb⟩ := hc
      refine ⟨t0, itc, hp, ?_, ?_, ?_⟩
      · exact htx.symm
      · rw [← hitems]
      · rw [← hdb, htx, hitems]
  simp only [createTransaction] at h
  split at h
  · exact absurd h (by simp)
  · split at h
    · exact absurd h (by simp)
    · split at h
      · rename_i c hec
        split at h
        · exact absurd h (by simp)
        · rename_i d hl
          exact commit (some d) (by simp [appliedDiscount, hec, hl]) h
      · rename_i hec
        exact commit none (by simp [appliedDiscount, hec]) h

theorem buildItems_map_price : ∀ (n txid : Int) (itc : List ItemToCreate),
    (buildItems n txid itc).map (fun it => it.price) =
      itc.map (fun it => it.price)
  | _, _, [] => rfl
  | n, txid, it :: rest => by
    simp [buildItems, buildItems_map_price (n + 1) txid rest]

theorem processItems_ok_mem (dict : Int → Option Product)
    (disc : Option Discount) :
    ∀ (l : List BodyItem) (t : ℚ) (its : List ItemToCreate),
      processItems dict disc l = .ok (t, its) →
      ∀ e ∈ its, ∃ b, b ∈ l ∧ ∃ product, dict b.product_id = some product ∧
        e = ⟨product.id, b.quantity,
          applyItemDiscount disc product (calcItemTotal product b.quantity)⟩
  | [], t, its, h => by
    simp [processItems] at h
    obtain ⟨_, h2⟩ := h
    subst h2
    intro e he
    simp at he
  | item :: rest, t, its, h => by
    rw [processItems] at h
    cases hd : dict item.product_id with
    | none => rw [hd] at h; exact absurd h (by simp)
    | some product =>
      rw [hd] at h
      dsimp only at h
      by_cases hs : product.stock < item.quantity
      · rw [if_pos hs] at h; exact absurd h (by simp)
      · rw [if_neg hs] at h
        cases hp : processItems dict disc rest with
        | error e => rw [hp] at h; exact absurd h (by simp)
        | ok pr =>
          obtain ⟨total, items⟩ := pr
          rw [hp] at h
          simp only [Except.ok.injEq, Prod.mk.injEq] at h
          obtain ⟨_, h2⟩ := h
          subst h2
          intro e he
          rcases List.mem_cons.mp he with he | he
          · exact ⟨item, List.mem_cons_self _ _, product, hd, he⟩
          · obtain ⟨b, hb, prod, hdb, hee⟩ :=
              processItems_ok_mem dict disc rest total items hp e he
            exact ⟨b, List.mem_cons_of_mem _ hb, prod, hdb, hee⟩

theorem createTransaction_total_formula (db : DB)
    (body : TransactionCreateBody) (now : Int) (tx : Transaction)
    (items : List TransactionItem) (db' : DB)
    (h : createTransaction db body now = (.created tx items, db')) :
    tx.totalAmount =
      applyOrderDiscount (appliedDiscount db body)
        ((items.map (fun it => it.price)).sum) := by
  obtain ⟨t0, itc, hp, htx, hitems, _⟩ :=
    createTransaction_created_shape db body now tx items db' h
  have hsum := processItems_ok_sum _ _ _ _ _ hp
  have hprices : (items.map (fun it => it.price)).sum =
      (itc.map (fun it => it.price)).sum := by
    rw [hitems, buildItems_map_price]
  rw [htx, hprices, ← hsum]

/-- C1 counterexample: on the spec's own example tier (quantity 10,
stored bundle price 90,000, unit price 10,000) the handler charges
`bundles * bundleQuantity * bundlePrice`, so a quantity of exactly 10
yields 900,000, not the claimed `floor(10/10)*90000 + (10 mod 10)*10000
= 90,000`. -/
theorem bundle_flat_price_cex :
    calcItemTotal specExampleProduct 10 = 900000 ∧
    ((10 / 10 : Int) : ℚ) * 90000 + ((10 % 10 : Int) : ℚ) * 10000 = 90000 ∧
    (900000 : ℚ) ≠ 90000 :=
  ⟨by norm_num [calcItemTotal, specExampleProduct], by norm_num, by norm_num⟩

/-- C1 amended: for a line item with unit price `u`, integer quantity
`q > 0` and bundle tier `(n, p)` on the product, the handler treats the
stored bundle price `p` as a per-unit price for the bundled units: if
`q ≥ n` the line total is `floor(q/n)*n*p + (q mod n)*u`; if `q < n` it
is `q*u`; in particular `q = n` yields `n*p`, not `p`. -/
theorem bundle_pricing_per_unit (product : Product) (q n : Int) (p : ℚ)
    (hq : product.bundleQuantity = some n) (hp : product.bundlePrice = some p)
    (hn : 0 < n) :
    (n ≤ q → calcItemTotal product q =
      ((q / n : Int) : ℚ) * (n : ℚ) * p + ((q % n : Int) : ℚ) * product.price) ∧
    (q < n → calcItemTotal product q = product.price * q) ∧
    (q = n → calcItemTotal product q = (n : ℚ) * p) := by
  refine ⟨?_, ?_, ?_⟩
  · intro hle
    simp [calcItemTotal, hq, hp, hle]
  · intro hlt
    simp [calcItemTotal, hq, hp, not_le.mpr hlt]
  · intro heq
    subst heq
    have hne : q ≠ 0 := by omega
    simp [calcItemTotal, hq, hp, Int.ediv_self hne, Int.emod_self]

/-- C1 witness: the amended formula evaluated on the example product at
quantity 25. -/
theorem bundle_pricing_per_unit_witness :
    specExampleProduct.bundleQuantity = some 10 ∧
    specExampleProduct.bundlePrice = some 90000 ∧ (0 : Int) < 10 ∧
    calcItemTotal specExampleProduct 25 =
      ((25 / 10 : Int) : ℚ) * (10 : ℚ) * 90000 +
        ((25 % 10 : Int) : ℚ) * specExampleProduct.price := by
  refine ⟨rfl, rfl, by decide, ?_⟩
  exact (bundle_pricing_per_unit specExampleProduct 25 10 90000 rfl rfl
    (by decide)).1 (by decide)

/-- C2 counterexample: a successful creation (three units at price 10,
product `cogs` 2) stores a transaction row whose `profit` column is NULL
even though `totalAmount - totalCOGS = 30 - 6 = 24`; the handler never
reads `cogs` and its insert omits `profit`. -/
theorem profit_null_cex :
    (createTransaction stockDB threeUnitsBody 0).1.isCreated = true ∧
    ((createTransaction stockDB threeUnitsBody 0).2.transactions.map
      (fun t => (t.profit, t.totalAmount))) = [(none, 30)] ∧
    specTotalCOGS stockDB threeUnitsBody = 6 := by
  refine ⟨?_, ?_, ?_⟩
  · simp [createTransaction, createTransaction.createTransactionCommit,
      processItems, buildDict, calcItemTotal, applyItemDiscount,
      applyOrderDiscount, effectiveCode, appliedDiscount, lookupDiscount,
      stockDB, stockProduct, threeUnitsBody, CreateResponse.isCreated]
  · norm_num [createTransaction, createTransaction.createTransactionCommit,
      processItems, buildDict, calcItemTotal, applyItemDiscount,
      applyOrderDiscount, effectiveCode, appliedDiscount, lookupDiscount,
      deductStock, buildItems, stockDB, stockProduct, threeUnitsBody]
  · norm_num [specTotalCOGS, buildDict, stockDB, stockProduct, threeUnitsBody]

/-- C2 amended: every transaction row created by the handler carries
`profit = NULL`; no cost-of-goods-sold accumulation happens and no
profit is stored. -/
theorem created_profit_is_null (db : DB) (body : TransactionCreateBody)
    (now : Int) (tx : Transaction) (items : List TransactionItem) (db' : DB)
    (h : createTransaction db body now = (.created tx items, db')) :
    tx.profit = none ∧ tx ∈ db'.transactions := by
  obtain ⟨t0, itc, _, htx, _, hdb⟩ :=
    createTransaction_created_shape db body now tx items db' h
  subst htx
  subst hdb
  simp

/-- C2 witness: the amended statement applies to the concrete successful
request of the counterexample. -/
theorem created_profit_is_null_witness :
    (createTransaction stockDB threeUnitsBody 0).1.isCreated = true := by
  have h : ∃ tx items db',
      createTransaction stockDB threeUnitsBody 0 = (.created tx items, db') := by
    norm_num [createTransaction, createTransaction.createTransactionCommit,
      processItems, buildDict, calcItemTotal, applyItemDiscount,
      applyOrderDiscount, effectiveCode, appliedDiscount, lookupDiscount,
      deductStock, buildItems, stockDB, stockProduct, threeUnitsBody]
  obtain ⟨tx, items, db', h⟩ := h
  have hp := (created_profit_is_null stockDB threeUnitsBody 0 tx items db' h).1
  rw [h]
  rfl

/-- C8: a request whose item list is empty is rejected with the
handler's validation message and the database state is returned
unchanged: no read result is used and nothing is written. -/
theorem empty_items_rejected (db : DB) (body : TransactionCreateBody)
    (now : Int) (h : body.items = []) :
    createTransaction db body now =
      (.badRequest "Transaction must have at least one item", db) := by
  simp [createTransaction, h]

/-- C8 witness: the empty request against the one-product database. -/
theorem empty_items_rejected_witness :
    createTransaction stockDB
      { items := [], created_at := none, discount_code := none } 0 =
      (.badRequest "Transaction must have at least one item", stockDB) :=
  empty_items_rejected stockDB
    { items := [], created_at := none, discount_code := none } 0 rfl

/-- C3: the stock check compares each line against the same fetched
snapshot, so a request listing one product twice with quantity equal to
its whole stock passes validation and the commit decrements twice:
starting from stock 5 (nonnegative) the request succeeds and leaves
stock -5. -/
theorem duplicate_items_negative_stock :
    (stockDB.products.all (fun p => 0 ≤ p.stock)) = true ∧
    (createTransaction stockDB dupItemsBody 0).1.isCreated = true ∧
    ((createTransaction stockDB dupItemsBody 0).2.products.map
      (fun p => p.stock)) = [-5] := by
  refine ⟨by decide, ?_, ?_⟩
  · simp [createTransaction, createTransaction.createTransactionCommit,
      processItems, buildDict, calcItemTotal, applyItemDiscount,
      applyOrderDiscount, effectiveCode, appliedDiscount, lookupDiscount,
      stockDB, stockProduct, dupItemsBody, CreateResponse.isCreated]
  · simp [createTransaction, createTransaction.createTransactionCommit,
      processItems, buildDict, calcItemTotal, applyItemDiscount,
      applyOrderDiscount, effectiveCode, appliedDiscount, lookupDiscount,
      deductStock, buildItems, stockDB, stockProduct, dupItemsBody]

/-- C4: on success the stored total equals the sum of the stored item
line totals, reduced once by `d` percent when the applied discount is
whole-order (`for_all_item`), and equal to the plain sum when no
discount applies or the discount is per-product; exact in rational
arithmetic. -/
theorem total_amount_matches_items_sum (db : DB) (body : TransactionCreateBody)
    (now : Int) (tx : Transaction) (items : List TransactionItem) (db' : DB)
    (h : createTransaction db body now = (.created tx items, db')) :
    (∀ d, appliedDiscount db body = some d → d.typ = "for_all_item" →
      tx.totalAmount =
        ((items.map (fun it => it.price)).sum) * (1 - d.percentage / 100)) ∧
    (∀ d, appliedDiscount db body = some d → ¬d.typ = "for_all_item" →
      tx.totalAmount = (items.map (fun it => it.price)).sum) ∧
    (appliedDiscount db body = none →
      tx.totalAmount = (items.map (fun it => it.price)).sum) := by
  have ht := createTransaction_total_formula db body now tx items db' h
  refine ⟨?_, ?_, ?_⟩
  · intro d hd hty
    rw [ht]
    simp only [applyOrderDiscount, hd, if_pos hty]
    ring
  · intro d hd hty
    rw [ht]
    simp only [applyOrderDiscount, hd, if_neg hty]
  · intro hd
    rw [ht]
    simp only [applyOrderDiscount, hd]

/-- C4 witness: the undiscounted three-unit request, where the stored
total 30 is the sum of the single stored line total. -/
theorem total_amount_matches_items_sum_witness :
    threeUnitsTx.totalAmount =
      (([threeUnitsItem] : List TransactionItem).map
        (fun it => it.price)).sum := by
  have hconc : createTransaction stockDB threeUnitsBody 0 =
      (.created threeUnitsTx [threeUnitsItem], threeUnitsDB) := by
    norm_num [createTransaction, createTransaction.createTransactionCommit,
      processItems, buildDict, calcItemTotal, applyItemDiscount,
      applyOrderDiscount, effectiveCode, appliedDiscount, lookupDiscount,
      deductStock, buildItems, stockDB, stockProduct, threeUnitsBody,
      threeUnitsTx, threeUnitsItem, threeUnitsDB, soldStockProduct]
  exact (total_amount_matches_items_sum _ _ _ _ _ _ hconc).2.2 rfl

/-- C5: a single-product discount targeting the item's product turns a
line total `T` into `T * (1 - d/100)`; one targeting a different product
leaves every line total unchanged; every stored line total is the
per-line-discounted bundle total; and a whole-order discount is applied
exactly once, to the sum of the already-discounted stored line totals. -/
theorem discount_application_rules :
    (∀ (d : Discount) (product : Product) (T : ℚ),
      d.typ = "individual_item" → d.productId = some product.id →
      applyItemDiscount (some d) product T = T * (1 - d.percentage / 100)) ∧
    (∀ (d : Discount) (product : Product) (T : ℚ) (pid : Int),
      d.productId = some pid → pid ≠ product.id →
      applyItemDiscount (some d) product T = T) ∧
    (∀ (dict : Int → Option Product) (disc : Option Discount)
        (l : List BodyItem) (t : ℚ) (its : List ItemToCreate),
      processItems dict disc l = .ok (t, its) →
      ∀ e ∈ its, ∃ b, b ∈ l ∧ ∃ product, dict b.product_id = some product ∧
        e.price =
          applyItemDiscount disc product (calcItemTotal product b.quantity)) ∧
    (∀ (db : DB) (body : TransactionCreateBody) (now : Int) (tx : Transaction)
        (items : List TransactionItem) (db' : DB) (d : Discount),
      createTransaction db body now = (.created tx items, db') →
      appliedDiscount db body = some d → d.typ = "for_all_item" →
      tx.totalAmount =
        ((items.map (fun it => it.price)).sum) * (1 - d.percentage / 100)) := by
  refine ⟨?_, ?_, ?_, ?_⟩
  · intro d product T hty hpid
    simp [applyItemDiscount, hty, hpid]
    ring
  · intro d product T pid hpid hne
    by_cases hty : d.typ = "individual_item"
    · simp [applyItemDiscount, hty, hpid, hne]
    · simp [applyItemDiscount, hty]
  · intro dict disc l t its hp e he
    obtain ⟨b, hb, product, hdp, hee⟩ :=
      processItems_ok_mem dict disc l t its hp e he
    exact ⟨b, hb, product, hdp, by rw [hee]⟩
  · intro db body now tx items db' d h hd hty
    have ht := createTransaction_total_formula db body now tx items db' h
    rw [ht]
    simp only [applyOrderDiscount, hd, if_pos hty]
    ring

/-- C5 witness: the twenty-percent single-product discount on a line
total of 100 for its own product. -/
theorem discount_application_rules_witness :
    applyItemDiscount (some indivDiscount20) stockProduct 100 =
      100 * (1 - indivDiscount20.percentage / 100) :=
  (discount_application_rules).1 indivDiscount20 stockProduct 100 rfl rfl

/-- C9 counterexample: with a negative-price product (accepted by the
products route, which bounds only the bundle fields), a whole-order
ten-percent discount and stored line totals summing to -10 (nonzero),
the stored total is -9, so the claimed strict excess of the items sum
over the total fails. -/
theorem order_discount_negative_sum_cex :
    createTransaction negPriceDB negPriceBody 0 =
      (.created negSaleTx [negSaleItem], negSaleDB) ∧
    (([negSaleItem] : List TransactionItem).map (fun it => it.price)).sum
      = -10 ∧
    negSaleTx.totalAmount = -9 ∧
    orderDiscount10.percentage > 0 ∧ (-10 : ℚ) ≠ 0 ∧ ¬((-10 : ℚ) > -9) := by
  have he : effectiveCode negPriceBody = some "SALE10" := by
    simp [effectiveCode, negPriceBody]
  have hl : lookupDiscount negPriceDB "SALE10" = some orderDiscount10 := by
    simp [lookupDiscount, negPriceDB, orderDiscount10]
  refine ⟨?_, by norm_num [negSaleItem], by norm_num [negSaleTx],
    by norm_num [orderDiscount10], by norm_num, by norm_num⟩
  norm_num [createTransaction, createTransaction.createTransactionCommit,
    processItems, buildDict, calcItemTotal, applyItemDiscount,
    applyOrderDiscount, deductStock, buildItems, he, hl,
    show negPriceBody.items = [⟨1, 1⟩] from rfl,
    show negPriceBody.created_at = none from rfl,
    show negPriceDB.products = [negPriceProduct] from rfl,
    show negPriceDB.discounts = [orderDiscount10] from rfl,
    show negPriceDB.transactions = [] from rfl,
    show negPriceDB.transactionItems = [] from rfl,
    show negPriceDB.nextTransactionId = 1 from rfl,
    show negPriceDB.nextItemId = 1 from rfl,
    negPriceProduct, orderDiscount10, negSaleTx, negSaleItem, negSaleDB,
    negSoldProduct]

/-- C9 amended: when a whole-order discount with positive percentage
applies and the stored line totals sum to a positive amount, the stored
total is strictly below that sum (the per-item rows keep their
pre-order-discount values). -/
theorem order_discount_reduces_total (db : DB) (body : TransactionCreateBody)
    (now : Int) (tx : Transaction) (items : List TransactionItem) (db' : DB)
    (d : Discount)
    (h : createTransaction db body now = (.created tx items, db'))
    (hd : appliedDiscount db body = some d) (hty : d.typ = "for_all_item")
    (hpos : 0 < d.percentage)
    (hS : 0 < (items.map (fun it => it.price)).sum) :
    tx.totalAmount < (items.map (fun it => it.price)).sum := by
  have ht := createTransaction_total_formula db body now tx items db' h
  rw [ht]
  simp only [applyOrderDiscount, hd, if_pos hty]
  have hmul : 0 < ((items.map (fun it => it.price)).sum) *
      (d.percentage / 100) :=
    mul_pos hS (div_pos hpos (by norm_num))
  linarith

/-- C9 witness: the positive-price sale (line totals 20, total 18). -/
theorem order_discount_reduces_total_witness :
    saleTx.totalAmount <
      (([saleItem] : List TransactionItem).map (fun it => it.price)).sum := by
  have he : effectiveCode posDiscountBody = some "SALE10" := by
    simp [effectiveCode, posDiscountBody]
  have hl : lookupDiscount posDiscountDB "SALE10" = some orderDiscount10 := by
    simp [lookupDiscount, posDiscountDB, orderDiscount10]
  have hconc : createTransaction posDiscountDB posDiscountBody 0 =
      (.created saleTx [saleItem], saleDB) := by
    norm_num [createTransaction, createTransaction.createTransactionCommit,
      processItems, buildDict, calcItemTotal, applyItemDiscount,
      applyOrderDiscount, deductStock, buildItems, he, hl,
      show posDiscountBody.items = [⟨1, 2⟩] from rfl,
      show posDiscountBody.created_at = none from rfl,
      show posDiscountDB.products = [stockProduct] from rfl,
      show posDiscountDB.discounts = [orderDiscount10] from rfl,
      show posDiscountDB.transactions = [] from rfl,
      show posDiscountDB.transactionItems = [] from rfl,
      show posDiscountDB.nextTransactionId = 1 from rfl,
      show posDiscountDB.nextItemId = 1 from rfl,
      stockProduct, orderDiscount10, saleTx, saleItem, saleDB, saleSoldProduct]
  refine order_discount_reduces_total _ _ _ _ _ _ orderDiscount10 hconc ?_ rfl
    (by norm_num [orderDiscount10]) (by norm_num [saleItem])
  simp [appliedDiscount, effectiveCode, lookupDiscount, posDiscountDB,
    posDiscountBody, orderDiscount10]

/-- C10: `extractBearerToken` returns a token exactly when the header
value splits on single spaces into exactly two parts whose first part is
the case-sensitive literal `Bearer` (so a lowercase scheme, extra
spaces, or any other shape gives null); and whenever it returns null,
`getOrganizationIdFromHeaders` reports an error with no organization and
performs no session lookup. -/
theorem bearer_token_exact_format (h : Option (List Char))
    (lookup : List Char → AuthResult) :
    ((extractBearerToken h).isSome ↔
      ∃ a tok, h = some a ∧ jsSplitSpace a = ["Bearer".toList, tok]) ∧
    (extractBearerToken h = none →
      (getOrganizationIdFromHeaders lookup h).1.organizationId = none ∧
      ((getOrganizationIdFromHeaders lookup h).1.error).isSome = true ∧
      (getOrganizationIdFromHeaders lookup h).2 = false) := by
  constructor
  · cases h with
    | none => simp [extractBearerToken]
    | some a =>
      by_cases ha : a = []
      · subst ha
        simp [extractBearerToken, jsSplitSpace]
      · rcases hsp : jsSplitSpace a with _ | ⟨s, _ | ⟨t, _ | ⟨u, rest⟩⟩⟩
        · simp [extractBearerToken, ha, hsp]
        · simp [extractBearerToken, ha, hsp]
        · by_cases hb : s = "Bearer".toList
          · subst hb
            simp [extractBearerToken, ha, hsp]
          · simp [extractBearerToken, ha, hsp, hb]
        · simp [extractBearerToken, ha, hsp]
  · intro hn
    cases h with
    | none => simp [getOrganizationIdFromHeaders]
    | some a =>
      by_cases ha : a = []
      · subst ha
        simp [getOrganizationIdFromHeaders]
      · simp [getOrganizationIdFromHeaders, ha, hn]

/-- C10 witness: a lowercase `bearer` scheme is rejected without any
session lookup. -/
theorem bearer_token_exact_format_witness :
    extractBearerToken (some ("bearer x".toList)) = none ∧
    (getOrganizationIdFromHeaders (fun _ => ⟨some "org", none⟩)
      (some ("bearer x".toList))).2 = false := by
  refine ⟨by decide, ?_⟩
  exact ((bearer_token_exact_format (some ("bearer x".toList))
    (fun _ => ⟨some "org", none⟩)).2 (by decide)).2.2

/-- C7 counterexample (organization part): the page returned by
GET /transactions contains rows of two different organizations, so for
any caller organization at least one foreign row is returned; the query
schema (transactions.ts lines 341-344) accepts only `offset` and
`limit`, so the claimed start and end date bounds do not exist either. -/
theorem list_returns_all_orgs_cex :
    twoOrgTxA ∈ getTransactionsPage twoOrgDB none none ∧
    twoOrgTxB ∈ getTransactionsPage twoOrgDB none none ∧
    twoOrgTxA.organizationId = some "orgA" ∧
    twoOrgTxB.organizationId = some "orgB" := by
  have hperm : (twoOrgDB.transactions.mergeSort newestFirst).Perm
      twoOrgDB.transactions := List.mergeSort_perm _ _
  have hpage : getTransactionsPage twoOrgDB none none =
      twoOrgDB.transactions.mergeSort newestFirst := by
    have hlen : (twoOrgDB.transactions.mergeSort newestFirst).length ≤ 100 := by
      rw [hperm.length_eq]
      simp [twoOrgDB]
    simp [getTransactionsPage, List.take_of_length_le hlen]
  rw [hpage]
  refine ⟨?_, ?_, rfl, rfl⟩
  · exact hperm.mem_iff.mpr (by simp [twoOrgDB])
  · exact hperm.mem_iff.mpr (by simp [twoOrgDB])

/-- C7 amended: GET /transactions returns a page ordered newest-first by
`created_at`, drawn from the whole `transaction` table (no organization
restriction) under the `offset`/`limit` window with defaults 0 and 100;
the route accepts no date parameters and performs no date validation. -/
theorem list_page_sorted_newest_first (db : DB) (offset limit : Option Nat) :
    List.Pairwise (fun a b => newestFirst a b = true)
      (getTransactionsPage db offset limit) ∧
    (∀ t ∈ getTransactionsPage db offset limit, t ∈ db.transactions) ∧
    (getTransactionsPage db offset limit).length ≤ limit.getD 100 := by
  have htrans : ∀ a b c : Transaction,
      newestFirst a b → newestFirst b c → newestFirst a c := by
    intro a b c hab hbc
    simp only [newestFirst, decide_eq_true_eq] at *
    omega
  have htotal : ∀ a b : Transaction, newestFirst a b || newestFirst b a := by
    intro a b
    simp only [newestFirst, Bool.or_eq_true, decide_eq_true_eq]
    omega
  have hsorted := List.sorted_mergeSort htrans htotal db.transactions
  have hsub : List.Sublist (getTransactionsPage db offset limit)
      (db.transactions.mergeSort newestFirst) :=
    (List.take_sublist _ _).trans (List.drop_sublist _ _)
  refine ⟨?_, ?_, ?_⟩
  · exact List.Pairwise.sublist hsub hsorted
  · intro t ht
    exact (List.mergeSort_perm db.transactions newestFirst).mem_iff.mp
      (hsub.subset ht)
  · calc (getTransactionsPage db offset limit).length
        ≤ limit.getD 100 := List.length_take_le _ _

theorem calcItemTotal_withOrg (f : Option String → Option String)
    (p : Product) (q : Int) :
    calcItemTotal (Product.withOrg f p) q = calcItemTotal p q := rfl

theorem applyItemDiscount_withOrg (f : Option String → Option String)
    (disc : Option Discount) (p : Product) (T : ℚ) :
    applyItemDiscount (disc.map (Discount.withOrg f)) (Product.withOrg f p)
      T = applyItemDiscount disc p T := by
  cases disc with
  | none => rfl
  | some d => rfl

theorem applyOrderDiscount_withOrg (f : Option String → Option String)
    (disc : Option Discount) (T : ℚ) :
    applyOrderDiscount (disc.map (Discount.withOrg f)) T =
      applyOrderDiscount disc T := by
  cases disc with
  | none => rfl
  | some d => rfl

theorem buildDict_mapOrgs (f : Option String → Option String) (db : DB)
    (ids : List Int) (pid : Int) :
    buildDict (DB.mapOrgs f db) ids pid =
      (buildDict db ids pid).map (Product.withOrg f) := by
  simp only [buildDict, DB.mapOrgs, List.filter_map, List.find?_map]
  rfl

theorem processItems_map_withOrg (f : Option String → Option String)
    (dict : Int → Option Product) (disc : Option Discount) :
    ∀ l : List BodyItem,
      processItems (fun pid => (dict pid).map (Product.withOrg f))
        (disc.map (Discount.withOrg f)) l = processItems dict disc l
  | [] => rfl
  | item :: rest => by
    rw [processItems, processItems, processItems_map_withOrg f dict disc rest]
    cases hd : dict item.product_id with
    | none => rfl
    | some product =>
      rw [Option.map_some']
      dsimp only
      by_cases hs : product.stock < item.quantity
      · rw [if_pos hs, if_pos (show (Product.withOrg f product).stock <
          item.quantity from hs)]
        rfl
      · rw [if_neg hs, if_neg (show ¬(Product.withOrg f product).stock <
          item.quantity from hs)]
        cases processItems dict disc rest with
        | error e => rfl
        | ok pr =>
          obtain ⟨total, items⟩ := pr
          dsimp only
          rw [applyItemDiscount_withOrg, calcItemTotal_withOrg]
          rfl

theorem lookupDiscount_mapOrgs (f : Option String → Option String) (db : DB)
    (code : String) :
    lookupDiscount (DB.mapOrgs f db) code =
      (lookupDiscount db code).map (Discount.withOrg f) := by
  simp only [lookupDiscount, DB.mapOrgs, List.find?_map]
  rfl

theorem deductStock_map_withOrg (f : Option String → Option String) :
    ∀ (itc : List ItemToCreate) (ps : List Product),
      deductStock (ps.map (Product.withOrg f)) itc =
        (deductStock ps itc).map (Product.withOrg f)
  | [], ps => rfl
  | it :: rest, ps => by
    rw [deductStock, deductStock, List.foldl_cons, List.foldl_cons]
    rw [show ((ps.map (Product.withOrg f)).map (fun p =>
        if p.id = it.productId then { p with stock := p.stock - it.quantity }
        else p)) =
      ((ps.map (fun p =>
        if p.id = it.productId then { p with stock := p.stock - it.quantity }
        else p)).map (Product.withOrg f)) from ?_]
    · exact deductStock_map_withOrg f rest _
    · rw [List.map_map, List.map_map]
      apply List.map_congr_left
      intro p _
      by_cases hid : p.id = it.productId
      · simp [Function.comp, Product.withOrg, hid]
      · simp [Function.comp, Product.withOrg, hid]

theorem commit_mapOrgs (f : Option String → Option String) (db : DB)
    (body : TransactionCreateBody) (now : Int) (disc : Option Discount) :
    createTransaction.createTransactionCommit (DB.mapOrgs f db) body now
      (disc.map (Discount.withOrg f)) =
    ((createTransaction.createTransactionCommit db body now disc).1,
      DB.mapOrgs f
        (createTransaction.createTransactionCommit db body now disc).2) := by
  simp only [createTransaction.createTransactionCommit]
  rw [show buildDict (DB.mapOrgs f db)
        (body.items.map (fun i => i.product_id)) =
      (fun pid => (buildDict db (body.items.map (fun i => i.product_id))
        pid).map (Product.withOrg f)) from
      funext (buildDict_mapOrgs f db _)]
  rw [processItems_map_withOrg]
  cases hp : processItems (buildDict db (body.items.map
      (fun i => i.product_id))) disc body.items with
  | error msg => rfl
  | ok pr =>
    obtain ⟨t0, itc⟩ := pr
    dsimp only
    rw [applyOrderDiscount_withOrg]
    simp only [DB.mapOrgs, Prod.mk.injEq, CreateResponse.created.injEq]
    exact ⟨trivial, by rw [deductStock_map_withOrg]⟩

/-- C6 counterexample: a request from no particular organization (the
handler reads none) buys products owned by organizations A and B under a
discount code owned by organization C, and succeeds; whatever the
caller's organization is, at least two of these rows belong to a
different organization yet are found rather than reported as not
found. -/
theorem cross_org_accepted_cex :
    (createTransaction crossOrgDB crossOrgBody 0).1.isCreated = true ∧
    (crossOrgDB.products.map (fun p => p.organizationId)) =
      [some "orgA", some "orgB"] ∧
    (crossOrgDB.discounts.map (fun d => d.organizationId)) = [some "orgC"] ∧
    ((createTransaction crossOrgDB crossOrgBody 0).2.transactions.map
      (fun t => t.discount)) = [some "XORG"] := by
  have he : effectiveCode crossOrgBody = some "XORG" := by
    simp [effectiveCode, crossOrgBody]
  have hl : lookupDiscount crossOrgDB "XORG" = some crossOrgDiscount := by
    simp [lookupDiscount, crossOrgDB, crossOrgDiscount]
  refine ⟨?_, by simp [crossOrgDB, crossOrgProductA, crossOrgProductB],
    by simp [crossOrgDB, crossOrgDiscount], ?_⟩
  · simp [createTransaction, createTransaction.createTransactionCommit,
      processItems, buildDict, calcItemTotal, applyItemDiscount,
      applyOrderDiscount, he, hl, deductStock, buildItems,
      show crossOrgBody.items = [⟨1, 1⟩, ⟨2, 1⟩] from rfl,
      show crossOrgBody.created_at = none from rfl,
      show crossOrgDB.products = [crossOrgProductA, crossOrgProductB] from rfl,
      crossOrgProductA, crossOrgProductB, crossOrgDiscount,
      CreateResponse.isCreated]
  · simp [createTransaction, createTransaction.createTransactionCommit,
      processItems, buildDict, calcItemTotal, applyItemDiscount,
      applyOrderDiscount, he, hl, deductStock, buildItems,
      show crossOrgBody.items = [⟨1, 1⟩, ⟨2, 1⟩] from rfl,
      show crossOrgBody.created_at = none from rfl,
      show crossOrgDB.products = [crossOrgProductA, crossOrgProductB] from rfl,
      show crossOrgDB.transactions = [] from rfl,
      crossOrgProductA, crossOrgProductB, crossOrgDiscount]

/-- C6 amended: the POST handler takes no caller organization at all,
and its product fetch and discount lookup read only ids and codes:
rewriting every product's and discount's `organization_id` with an
arbitrary function changes neither the response nor anything in the
successor state beyond those same rewritten fields. -/
theorem org_fields_ignored (f : Option String → Option String) (db : DB)
    (body : TransactionCreateBody) (now : Int) :
    createTransaction (DB.mapOrgs f db) body now =
      ((createTransaction db body now).1,
        DB.mapOrgs f (createTransaction db body now).2) := by
  simp only [createTransaction]
  by_cases h0 : (body.items.map (fun i => i.product_id)).length = 0
  · rw [if_pos h0, if_pos h0]
  · rw [if_neg h0, if_neg h0]
    have hfilt : ((body.items.map (fun i => i.product_id)).filter
        (fun pid => (buildDict (DB.mapOrgs f db)
          (body.items.map (fun i => i.product_id)) pid).isNone)) =
        ((body.items.map (fun i => i.product_id)).filter
        (fun pid => (buildDict db
          (body.items.map (fun i => i.product_id)) pid).isNone)) := by
      apply List.filter_congr
      intro pid _
      rw [buildDict_mapOrgs]
      cases buildDict db (body.items.map (fun i => i.product_id)) pid with
      | none => rfl
      | some p => rfl
    rw [hfilt]
    by_cases h1 : ((body.items.map (fun i => i.product_id)).filter
        (fun pid => (buildDict db
          (body.items.map (fun i => i.product_id)) pid).isNone)).length ≠ 0
    · rw [if_pos h1, if_pos h1]
    · rw [if_neg h1, if_neg h1]
      cases hec : effectiveCode body with
      | none =>
        dsimp only
        exact commit_mapOrgs f db body now none
      | some c =>
        dsimp only
        rw [lookupDiscount_mapOrgs]
        cases hl : lookupDiscount db c with
        | none => rfl
        | some d =>
          rw [Option.map_some']
          exact commit_mapOrgs f db body now (some d)

/-- C7 witness: the page over the two-organization table respects the
default limit. -/
theorem list_page_sorted_newest_first_witness :
    (getTransactionsPage twoOrgDB none none).length ≤ 100 ∧
    twoOrgTxA ∈ twoOrgDB.transactions := by
  refine ⟨(list_page_sorted_newest_first twoOrgDB none none).2.2, ?_⟩
  simp [twoOrgDB]
